import Mathlib

/-!
Verification of the prioritized replay buffer in
`src/dqn_agents/buffers/replay_buffer.py` (class `PrioritizedReplayBuffer`).

Shallow embedding notes:
* Python floats are modelled as real numbers; `x ** y` on floats becomes
  `Real.rpow` (written `x ^ y` with a real exponent).  All bases occurring in
  the claims are nonnegative, where `rpow` agrees with Python `**`.
* Transition payloads are opaque to the buffer (it only stores and returns
  them), so they are modelled by natural-number tokens.
* The numpy object arrays `self.experience` and `self.data` are modelled as
  total functions from slot numbers; only indices below `buffer_size` are
  ever read by the code.
* Real division is total in Lean (`x / 0 = 0`); none of the statements below
  evaluate a division at a zero denominator in a place where Python would
  raise.
* The global `random` state is not modelled: the only deterministic part of
  `sample`, the emptiness check inside `random.choices`, is modelled
  explicitly (CPython raises `ValueError` exactly when the total of the
  supplied weights is not greater than zero).
-/

noncomputable section

namespace Replay

/-- Opaque transition payload. The buffer never inspects the
`(state, action, reward, next_state, done)` tuple, so a token suffices. -/
abbrev Transition := ℕ

/-- One row of `self.data`: `[priority, probability, weight, index]`.
The index field is an integer because `update_priorities` stores the raw
caller-supplied index, which may be negative (numpy wraparound). -/
structure PRec where
  priority : ℝ
  probability : ℝ
  weight : ℝ
  index : ℤ

attribute [ext] PRec

/-- State of a `PrioritizedReplayBuffer` object. Field names follow the
source. The unused fields `sampled_batches` and `current_batch` and the
random seed are omitted; `alpha_decay_rate` and `beta_growth_rate` are kept
because `update_parameters` reads them. -/
structure PRB where
  buffer_size : ℕ
  batch_size : ℕ
  alpha : ℝ
  alpha_decay_rate : ℝ
  beta : ℝ
  beta_growth_rate : ℝ
  compute_weights : Bool
  experience_count : ℕ
  experience : ℕ → Transition
  data : ℕ → PRec
  priorities_sum_alpha : ℝ
  priorities_max : ℝ
  weights_max : ℝ

attribute [ext] PRB

/-- Constructor `__init__`: zeroed storage, counters at their source values
(`alpha_decay_rate = 0.99`, `beta_growth_rate = 1.001`,
`priorities_sum_alpha = 0`, `priorities_max = 1`, `weights_max = 1`). -/
def PRB.init (buffer_size batch_size : ℕ) (compute_weights : Bool)
    (alpha beta : ℝ) : PRB where
  buffer_size := buffer_size
  batch_size := batch_size
  alpha := alpha
  alpha_decay_rate := 0.99
  beta := beta
  beta_growth_rate := 1.001
  compute_weights := compute_weights
  experience_count := 0
  experience := fun _ => 0
  data := fun _ => ⟨0, 0, 0, 0⟩
  priorities_sum_alpha := 0
  priorities_max := 1
  weights_max := 1

/-- Python `max(self.data, key=...)[field]` over the `n` rows of the data
array: the maximum of `f` over indices `0, ..., n-1` (for `n ≥ 1`; the code
only evaluates this when the buffer is full, so `n = buffer_size ≥ 1`). -/
def maxOver (f : ℕ → ℝ) (n : ℕ) : ℝ :=
  ((List.range n).map f).foldl max (f 0)

/-- Numpy indexing `a[i]` on an array of length `n` for `-n ≤ i < n`:
negative indices count from the end. -/
def wrapIdx (n : ℕ) (i : ℤ) : ℕ :=
  (if i < 0 then i + (n : ℤ) else i).toNat

/-- Eviction block of `add` (lines 152-161), entered when
`experience_count > buffer_size` after the increment: subtract the evicted
priority contribution from the running sum; if the evicted row held the
maximum priority, zero that priority and rescan all rows for the new
maximum; symmetrically for the maximum weight when `compute_weights`. -/
def PRB.evictAt (b : PRB) (index : ℕ) : PRB :=
  let temp := b.data index
  let b1 := { b with
    priorities_sum_alpha := b.priorities_sum_alpha - temp.priority ^ b.alpha }
  let b2 :=
    if temp.priority = b1.priorities_max then
      let d1 := fun j => if j = index then
          { b1.data index with priority := 0 } else b1.data j
      { b1 with data := d1,
                priorities_max := maxOver (fun i => (d1 i).priority) b1.buffer_size }
    else b1
  if b2.compute_weights then
    if temp.weight = b2.weights_max then
      let d2 := fun j => if j = index then
          { b2.data index with weight := 0 } else b2.data j
      { b2 with data := d2,
                weights_max := maxOver (fun i => (d2 i).weight) b2.buffer_size }
    else b2
  else b2

/-- Method `add` (lines 147-169). The count is incremented first, then the
write slot is `experience_count % buffer_size`; when the incremented count
exceeds the capacity the eviction block runs and the count is reset to
`buffer_size`. The new row gets `priority = priorities_max`,
`weight = weights_max`, and a probability computed from the updated sum. -/
def PRB.add (b : PRB) (t : Transition) : PRB :=
  let count := b.experience_count + 1
  let index := count % b.buffer_size
  let full := b.buffer_size < count
  let bE := if full then b.evictAt index else b
  let count2 := if full then b.buffer_size else count
  let priority := bE.priorities_max
  let weight := bE.weights_max
  let sum2 := bE.priorities_sum_alpha + priority ^ bE.alpha
  let probability := priority ^ bE.alpha / sum2
  { bE with
    experience_count := count2,
    experience := fun j => if j = index then t else bE.experience j,
    data := fun j => if j = index then
        ⟨priority, probability, weight, (index : ℤ)⟩ else bE.data j,
    priorities_sum_alpha := sum2 }

/-- One iteration of the `update_priorities` loop (lines 108-125) for the
pair `(td, index)`. The `Bool` component is `true` when numpy raises
`IndexError` at the read `self.data[index, 0]` (index outside
`[-buffer_size, buffer_size)`); note the two max trackers are already
updated at that point. Inside one iteration the fields `buffer_size`,
`alpha`, `beta`, `data`, `priorities_sum_alpha`, `weights_max` read below
are not yet mutated when they are read, so they are read off `b` directly;
the write order of the source is preserved. -/
def PRB.updateOne (b : PRB) (td : ℝ) (index : ℤ) : PRB × Bool :=
  let N : ℕ := min b.experience_count b.buffer_size
  let updated_priority := td
  let pm := if updated_priority > b.priorities_max then updated_priority
            else b.priorities_max
  let updated_weight : ℝ :=
    if b.compute_weights then
      (((N : ℝ) * updated_priority) ^ (-b.beta)) / b.weights_max
    else 1
  let wm := if b.compute_weights then
      (if updated_weight > b.weights_max then updated_weight else b.weights_max)
    else b.weights_max
  if index < -(b.buffer_size : ℤ) ∨ (b.buffer_size : ℤ) ≤ index then
    ({ b with priorities_max := pm, weights_max := wm }, true)
  else
    let i : ℕ := wrapIdx b.buffer_size index
    let old_priority := (b.data i).priority
    let s := b.priorities_sum_alpha + updated_priority ^ b.alpha
             - old_priority ^ b.alpha
    let updated_probability := updated_priority ^ b.alpha / s
    ({ b with priorities_max := pm, weights_max := wm,
              priorities_sum_alpha := s,
              data := fun j => if j = i then
                ⟨updated_priority, updated_probability, updated_weight, index⟩
                else b.data j }, false)

/-- Method `update_priorities` over the zipped list of
`(td, index)` pairs, in input order; a raised `IndexError` stops the loop
and is surfaced (second component `true`), keeping the mutations already
performed. -/
def PRB.update_priorities : PRB → List (ℝ × ℤ) → PRB × Bool
  | b, [] => (b, false)
  | b, (td, idx) :: rest =>
    let r := b.updateOne td idx
    if r.2 then (r.1, true) else r.1.update_priorities rest

/-- Method `update_parameters` (lines 133-145): decay `alpha`, grow `beta`
clamped to 1, recompute `priorities_sum_alpha` from scratch over all rows,
then rewrite every row in index order. The weight formula of the source
reads `element[1]`, the row probability, not the row priority. Each
iteration writes to row `int(element[-1])` (numpy indexing on the stored
index field). -/
def PRB.update_parameters (b : PRB) : PRB :=
  let alpha := b.alpha * b.alpha_decay_rate
  let beta0 := b.beta * b.beta_growth_rate
  let beta := if beta0 > 1 then 1 else beta0
  let N : ℕ := min b.experience_count b.buffer_size
  let s : ℝ := ((List.range b.buffer_size).map
    (fun i => (b.data i).priority ^ alpha)).sum
  let step : (ℕ → PRec) → ℕ → (ℕ → PRec) := fun d i =>
    let e := d i
    let probability := e.priority ^ alpha / s
    let weight : ℝ := if b.compute_weights then
        (((N : ℝ) * e.probability) ^ (-beta)) / b.weights_max
      else 1
    let tgt := wrapIdx b.buffer_size e.index
    fun j => if j = tgt then ⟨e.priority, probability, weight, e.index⟩ else d j
  { b with alpha := alpha, beta := beta, priorities_sum_alpha := s,
           data := (List.range b.buffer_size).foldl step b.data }

/-- Derived quantity of the spec: `occupied_count = min(experience_count,
capacity)`. -/
def PRB.occupied_count (b : PRB) : ℕ :=
  min b.experience_count b.buffer_size

/-- Total of the sampling weights passed by `_encode_samples` to
`random.choices`, namely the probability column of `self.data`. -/
def PRB.sampleWeightTotal (b : PRB) : ℝ :=
  ((List.range b.buffer_size).map (fun i => (b.data i).probability)).sum

/-- Deterministic skeleton of `sample` / `_encode_samples`: CPython
`random.choices` raises `ValueError` exactly when the total of the supplied
weights is not greater than zero, before anything is drawn; the exception
propagates to the caller of `sample` (there is no retry). Otherwise a batch
is produced (its random contents are not modelled). -/
def PRB.sampleBatch (b : PRB) : Except String Unit :=
  if b.sampleWeightTotal ≤ 0 then
    Except.error "Total of weights must be greater than zero"
  else Except.ok ()

/-- A sequence of `add` calls, oldest first. -/
def addsFrom (b : PRB) (ts : List Transition) : PRB :=
  ts.foldl PRB.add b

/-- Buffer states reachable through the public mutating interface from a
freshly constructed buffer. -/
inductive Reached : PRB → Prop where
  | init : ∀ (cap bs : ℕ) (cw : Bool) (a be : ℝ),
      Reached (PRB.init cap bs cw a be)
  | add : ∀ {b : PRB} (t : Transition), Reached b → Reached (b.add t)
  | upd : ∀ {b : PRB} (pairs : List (ℝ × ℤ)), Reached b →
      Reached (b.update_priorities pairs).1
  | par : ∀ {b : PRB}, Reached b → Reached b.update_parameters

/-! Projection lemmas: fields untouched by each operation, and the closed
forms of the touched fields that do not depend on the evicted data. -/

theorem evictAt_buffer_size (b : PRB) (i : ℕ) :
    (b.evictAt i).buffer_size = b.buffer_size := by
  simp only [PRB.evictAt]; split_ifs <;> rfl

theorem evictAt_experience (b : PRB) (i : ℕ) :
    (b.evictAt i).experience = b.experience := by
  simp only [PRB.evictAt]; split_ifs <;> rfl

theorem evictAt_experience_count (b : PRB) (i : ℕ) :
    (b.evictAt i).experience_count = b.experience_count := by
  simp only [PRB.evictAt]; split_ifs <;> rfl

theorem evictAt_alpha (b : PRB) (i : ℕ) :
    (b.evictAt i).alpha = b.alpha := by
  simp only [PRB.evictAt]; split_ifs <;> rfl

theorem evictAt_compute_weights (b : PRB) (i : ℕ) :
    (b.evictAt i).compute_weights = b.compute_weights := by
  simp only [PRB.evictAt]; split_ifs <;> rfl

theorem add_buffer_size (b : PRB) (t : Transition) :
    (b.add t).buffer_size = b.buffer_size := by
  simp only [PRB.add]; split_ifs with h
  · exact evictAt_buffer_size b _
  · rfl

theorem add_experience_count (b : PRB) (t : Transition) :
    (b.add t).experience_count =
      if b.buffer_size < b.experience_count + 1 then b.buffer_size
      else b.experience_count + 1 := rfl

theorem add_experience (b : PRB) (t : Transition) :
    (b.add t).experience = fun j =>
      if j = (b.experience_count + 1) % b.buffer_size then t
      else b.experience j := by
  simp only [PRB.add]; split_ifs with h
  · rw [evictAt_experience]
  · rfl

theorem add_compute_weights (b : PRB) (t : Transition) :
    (b.add t).compute_weights = b.compute_weights := by
  simp only [PRB.add]; split_ifs with h
  · exact evictAt_compute_weights b _
  · rfl

theorem add_alpha (b : PRB) (t : Transition) :
    (b.add t).alpha = b.alpha := by
  simp only [PRB.add]; split_ifs with h
  · exact evictAt_alpha b _
  · rfl

theorem updateOne_compute_weights (b : PRB) (td : ℝ) (idx : ℤ) :
    (b.updateOne td idx).1.compute_weights = b.compute_weights := by
  simp only [PRB.updateOne]; split_ifs <;> rfl

theorem update_priorities_compute_weights (pairs : List (ℝ × ℤ)) (b : PRB) :
    (b.update_priorities pairs).1.compute_weights = b.compute_weights := by
  induction pairs generalizing b with
  | nil => rfl
  | cons p rest ih =>
    obtain ⟨td, idx⟩ := p
    simp only [PRB.update_priorities]
    split_ifs with h
    · exact updateOne_compute_weights b td idx
    · rw [ih, updateOne_compute_weights]

theorem update_parameters_compute_weights (b : PRB) :
    b.update_parameters.compute_weights = b.compute_weights := rfl

theorem update_parameters_experience_count (b : PRB) :
    b.update_parameters.experience_count = b.experience_count := rfl

theorem update_parameters_buffer_size (b : PRB) :
    b.update_parameters.buffer_size = b.buffer_size := rfl

theorem update_parameters_weights_max (b : PRB) :
    b.update_parameters.weights_max = b.weights_max := rfl

theorem addsFrom_cons (b : PRB) (t : Transition) (ts : List Transition) :
    addsFrom b (t :: ts) = addsFrom (b.add t) ts := rfl

/-- Running a list of adds: the count follows `min (start + n) capacity`
as long as the starting count does not exceed the capacity. -/
theorem addsFrom_count (ts : List Transition) (b : PRB)
    (h : b.experience_count ≤ b.buffer_size) :
    (addsFrom b ts).experience_count
        = min (b.experience_count + ts.length) b.buffer_size
      ∧ (addsFrom b ts).buffer_size = b.buffer_size := by
  induction ts generalizing b with
  | nil =>
    refine ⟨?_, rfl⟩
    simp only [addsFrom, List.foldl_nil, List.length_nil, Nat.add_zero]
    omega
  | cons t ts ih =>
    rw [addsFrom_cons]
    have hle : (b.add t).experience_count ≤ (b.add t).buffer_size := by
      rw [add_experience_count, add_buffer_size]; split <;> omega
    obtain ⟨h1, h2⟩ := ih (b.add t) hle
    rw [h1, h2, add_experience_count, add_buffer_size, List.length_cons]
    refine ⟨?_, rfl⟩
    split <;> omega

/-- C1: the spec demands that after `capacity + k` adds the buffer holds
exactly the most recent `capacity` transitions in circular order. The code
violates this: on a capacity-2 buffer, after adding transitions 1,2,3,4 the
store holds transition 2 in slot 0 and transition 4 in slot 1 — transition
3 was overwritten by transition 4 (once full, every add writes slot 1), so
the most recent two transitions 3,4 are not both retained, although
`occupied_count` does equal the capacity. -/
theorem C1_code_eval :
    (((((PRB.init 2 64 true 1 1).add 1).add 2).add 3).add 4).experience 0 = 2 ∧
    (((((PRB.init 2 64 true 1 1).add 1).add 2).add 3).add 4).experience 1 = 4 ∧
    (((((PRB.init 2 64 true 1 1).add 1).add 2).add 3).add 4).occupied_count = 2 := by
  refine ⟨?_, ?_, ?_⟩ <;>
    simp [PRB.occupied_count, add_experience, add_experience_count,
      add_buffer_size, PRB.init]

/-- C4 counterexample: on a capacity-1 buffer, after 2 calls to `add` the
field `experience_count` equals 1, not 2 — the claim that it is uncapped
and equals the number of adds fails. -/
theorem C4_counterexample :
    (((PRB.init 1 64 true 1 1).add 0).add 0).experience_count = 1 ∧
    (1 : ℕ) ≠ 2 := by
  refine ⟨?_, by decide⟩
  simp [add_experience_count, add_buffer_size, PRB.init]

/-- C4 (amended): after `n` calls to `add` on a freshly constructed buffer,
`experience_count` equals `min n capacity` — it grows by one per add until
it reaches the capacity and is then reset to the capacity by every later
add. -/
theorem C4_amended_count_capped (cap bs : ℕ) (cw : Bool) (a be : ℝ)
    (ts : List Transition) :
    (addsFrom (PRB.init cap bs cw a be) ts).experience_count
      = min ts.length cap := by
  have h := addsFrom_count ts (PRB.init cap bs cw a be) (by simp [PRB.init])
  rw [h.1]; simp [PRB.init]

/-- C5 counterexample: the very first `add` on a capacity-2 buffer writes
transition 7 to slot 1, not to slot 0 as the claim (pre-increment index)
predicts. -/
theorem C5_counterexample :
    ((PRB.init 2 64 true 1 1).add 7).experience 1 = 7 ∧
    ((PRB.init 2 64 true 1 1).add 7).experience 0 ≠ 7 := by
  rw [add_experience]
  constructor <;> simp [PRB.init]

/-- C5 (amended): every call to `add` writes to slot
`(experience_count + 1) mod capacity`, the index being computed after the
increment of `experience_count`; in particular the first add writes to
slot `1 mod capacity`, the second to `2 mod capacity`, and so on. Slots
other than the written one are unchanged. -/
theorem C5_amended_write_slot (b : PRB) (t : Transition) (j : ℕ)
    (hj : j ≠ (b.experience_count + 1) % b.buffer_size) :
    (b.add t).experience ((b.experience_count + 1) % b.buffer_size) = t ∧
    (b.add t).experience j = b.experience j := by
  rw [add_experience]
  exact ⟨by simp, by simp [hj]⟩

/-- C5 witness: concrete instance of the amended statement on a fresh
capacity-2 buffer. -/
theorem C5_amended_write_slot_witness :
    ((PRB.init 2 64 true 1 1).add 5).experience
        (((PRB.init 2 64 true 1 1).experience_count + 1)
          % (PRB.init 2 64 true 1 1).buffer_size) = 5 ∧
    ((PRB.init 2 64 true 1 1).add 5).experience 0
        = (PRB.init 2 64 true 1 1).experience 0 :=
  C5_amended_write_slot (PRB.init 2 64 true 1 1) 5 0 (by simp [PRB.init])

/-- C10: once `experience_count` has reached the capacity (at least 2),
every further `add` leaves `experience_count` equal to the capacity and
writes to slot `1 = (capacity + 1) mod capacity`, leaving every other slot
untouched. -/
theorem C10_stuck_slot (b : PRB) (t : Transition) (j : ℕ)
    (h2 : 2 ≤ b.buffer_size) (hc : b.experience_count = b.buffer_size)
    (hj : j ≠ 1) :
    (b.add t).experience_count = b.buffer_size ∧
    (b.add t).experience 1 = t ∧
    (b.add t).experience j = b.experience j := by
  have hidx : (b.experience_count + 1) % b.buffer_size = 1 := by
    rw [hc, Nat.add_mod_left]
    exact Nat.mod_eq_of_lt (by omega)
  refine ⟨?_, ?_, ?_⟩
  · rw [add_experience_count, hc]; split <;> omega
  · rw [add_experience]; simp [hidx]
  · rw [add_experience]; simp [hidx, hj]

/-- C10 witness: concrete instance on a full capacity-2 buffer. -/
theorem C10_stuck_slot_witness :
    ((((PRB.init 2 64 true 1 1).add 0).add 0).add 9).experience_count
        = (((PRB.init 2 64 true 1 1).add 0).add 0).buffer_size ∧
    ((((PRB.init 2 64 true 1 1).add 0).add 0).add 9).experience 1 = 9 ∧
    ((((PRB.init 2 64 true 1 1).add 0).add 0).add 9).experience 0
        = (((PRB.init 2 64 true 1 1).add 0).add 0).experience 0 :=
  C10_stuck_slot (((PRB.init 2 64 true 1 1).add 0).add 0) 9 0
    (by simp [add_buffer_size, PRB.init])
    (by simp [add_experience_count, add_buffer_size, PRB.init])
    (by decide)

/-- The source idiom `if x > m: m = x` computes `max m x`. -/
theorem ite_gt_eq_max (m x : ℝ) : (if x > m then x else m) = max m x := by
  rcases le_or_lt x m with h | h
  · rw [if_neg (not_lt.mpr h), max_eq_left h]
  · rw [if_pos h, max_eq_right h.le]

/-- Out-of-range branch of one `update_priorities` iteration: the
`IndexError` flag is set at the read of `self.data[index, 0]`, with the
data rows and the running sum untouched, but with `priorities_max` (and,
when weights are computed, `weights_max`) already updated. -/
theorem updateOne_oob (b : PRB) (td : ℝ) (idx : ℤ)
    (h : idx < -(b.buffer_size : ℤ) ∨ (b.buffer_size : ℤ) ≤ idx) :
    (b.updateOne td idx).2 = true ∧
    (b.updateOne td idx).1.data = b.data ∧
    (b.updateOne td idx).1.priorities_sum_alpha = b.priorities_sum_alpha ∧
    (b.updateOne td idx).1.priorities_max = max b.priorities_max td := by
  simp only [PRB.updateOne]
  rw [if_pos h]
  exact ⟨rfl, rfl, rfl, ite_gt_eq_max _ _⟩

/-- C2 counterexample: capacity 3, two adds with default priorities. After
the second `add` returns, slot 1 is occupied (`occupied_count = 2`) and
still stores probability 1, computed from the older sum, while
`priority ^ alpha / priorities_sum_alpha` with the post-call sum is `1/2`
— so invariant 1 fails for an occupied slot other than the newly written
one. -/
theorem C2_counterexample :
    (((PRB.init 3 64 true (1/2) (1/2)).add 0).add 0).occupied_count = 2 ∧
    ((((PRB.init 3 64 true (1/2) (1/2)).add 0).add 0).data 1).probability = 1 ∧
    ((((PRB.init 3 64 true (1/2) (1/2)).add 0).add 0).data 1).priority
        ^ (((PRB.init 3 64 true (1/2) (1/2)).add 0).add 0).alpha
      / (((PRB.init 3 64 true (1/2) (1/2)).add 0).add 0).priorities_sum_alpha
      = 1 / 2 ∧
    (1 : ℝ) ≠ 1 / 2 := by
  refine ⟨?_, ?_, ?_, by norm_num⟩ <;>
    norm_num [PRB.add, PRB.init, PRB.occupied_count, Real.one_rpow]

/-- C2 (amended): after `add` returns, invariant 1 holds for the newly
written slot `(experience_count + 1) mod capacity`: its stored probability
equals its stored priority raised to `alpha`, divided by the post-call
`priorities_sum_alpha`. Slots written earlier keep probabilities computed
from older values of the sum. -/
theorem C2_amended_new_slot (b : PRB) (t : Transition) :
    ((b.add t).data ((b.experience_count + 1) % b.buffer_size)).probability
      = ((b.add t).data ((b.experience_count + 1) % b.buffer_size)).priority
          ^ (b.add t).alpha / (b.add t).priorities_sum_alpha := by
  simp only [PRB.add]
  split_ifs with h <;> simp

/-- C3 counterexample: capacity 1, `compute_weights = false`. After one
`add`, the only occupied slot holds priority 1 and `priorities_max = 1`.
Calling `update_priorities` with priority `1/2` for that slot lowers the
stored priority to `1/2`, yet `priorities_max` stays 1 — it no longer
equals the true maximum priority over occupied slots. -/
theorem C3_counterexample :
    ((((PRB.init 1 64 false (1/2) (1/2)).add 0).update_priorities
        [((1/2 : ℝ), (0 : ℤ))]).1).priorities_max = 1 ∧
    (((((PRB.init 1 64 false (1/2) (1/2)).add 0).update_priorities
        [((1/2 : ℝ), (0 : ℤ))]).1).data 0).priority = 1 / 2 ∧
    ((((PRB.init 1 64 false (1/2) (1/2)).add 0).update_priorities
        [((1/2 : ℝ), (0 : ℤ))]).1).occupied_count = 1 ∧
    (1 : ℝ) ≠ 1 / 2 := by
  refine ⟨?_, ?_, ?_, by norm_num⟩ <;>
    norm_num [PRB.update_priorities, PRB.updateOne, PRB.add, PRB.init,
      wrapIdx, PRB.occupied_count]

/-- C3 (amended): one `update_priorities` iteration sets `priorities_max`
to `max(priorities_max, updated_priority)` — the tracker is only ever
raised, never rescanned downward, so after lowering the priority of the
slot holding the previous maximum it can exceed the true maximum of the
occupied slots. (After `add` overwrites the slot holding the maximum, the
eviction block does rescan.) -/
theorem C3_amended_max_only_raised (b : PRB) (td : ℝ) (idx : ℤ) :
    ((b.updateOne td idx).1).priorities_max = max b.priorities_max td := by
  simp only [PRB.updateOne, ite_gt_eq_max]
  split_ifs <;> rfl

/-- C7 counterexample: `update_priorities` with the negative slot index
`-1` on a capacity-1 buffer does not surface any error (numpy wraps the
index around) and silently rewrites record 0, lowering its priority to
`1/2`. -/
theorem C7_counterexample :
    (((PRB.init 1 64 false 1 1).add 0).update_priorities
        [((1/2 : ℝ), (-1 : ℤ))]).2 = false ∧
    ((((PRB.init 1 64 false 1 1).add 0).update_priorities
        [((1/2 : ℝ), (-1 : ℤ))]).1.data 0).priority = 1 / 2 := by
  refine ⟨?_, ?_⟩ <;>
    norm_num [PRB.update_priorities, PRB.updateOne, PRB.add, PRB.init, wrapIdx]

/-- C7 (amended): `update_priorities` raises `IndexError` for a slot index
below `-capacity` or at least `capacity`, leaving the data rows and the
running sum untouched — but `priorities_max` has already been raised to
`max(priorities_max, td)` when the error surfaces (and `weights_max` may
also have moved when weights are computed); an index in
`[-capacity, -1]` is not an error at all: it wraps around. -/
theorem C7_amended_oob_error (b : PRB) (td : ℝ) (idx : ℤ)
    (h : idx < -(b.buffer_size : ℤ) ∨ (b.buffer_size : ℤ) ≤ idx) :
    (b.update_priorities [(td, idx)]).2 = true ∧
    (b.update_priorities [(td, idx)]).1.data = b.data ∧
    (b.update_priorities [(td, idx)]).1.priorities_sum_alpha
        = b.priorities_sum_alpha ∧
    (b.update_priorities [(td, idx)]).1.priorities_max
        = max b.priorities_max td := by
  have h2 := updateOne_oob b td idx h
  refine ⟨?_, ?_, ?_, ?_⟩ <;>
    simp only [PRB.update_priorities, h2.1, eq_self_iff_true, if_true] <;>
    first
      | trivial
      | exact h2.2.1
      | exact h2.2.2.1
      | exact h2.2.2.2

/-- C7 witness: index 5 on a capacity-1 buffer is rejected with the trackers
updated and the rows untouched. -/
theorem C7_amended_oob_error_witness :
    ((PRB.init 1 64 false 1 1).update_priorities [((0 : ℝ), (5 : ℤ))]).2 = true ∧
    ((PRB.init 1 64 false 1 1).update_priorities [((0 : ℝ), (5 : ℤ))]).1.data
        = (PRB.init 1 64 false 1 1).data ∧
    ((PRB.init 1 64 false 1 1).update_priorities
        [((0 : ℝ), (5 : ℤ))]).1.priorities_sum_alpha
        = (PRB.init 1 64 false 1 1).priorities_sum_alpha ∧
    ((PRB.init 1 64 false 1 1).update_priorities
        [((0 : ℝ), (5 : ℤ))]).1.priorities_max
        = max (PRB.init 1 64 false 1 1).priorities_max 0 :=
  C7_amended_oob_error (PRB.init 1 64 false 1 1) 0 5
    (by right; norm_num [PRB.init])

/-- C8: on a freshly constructed buffer (the occupied count is zero) every
sampling probability is zero, so `sample` fails — `random.choices` raises
on a zero total weight before drawing anything, the exception propagates to
the caller, and no batch is produced. -/
theorem C8_empty_sample_fails (cap bs : ℕ) (cw : Bool) (a be : ℝ) :
    (PRB.init cap bs cw a be).occupied_count = 0 ∧
    (PRB.init cap bs cw a be).sampleBatch
      = Except.error "Total of weights must be greater than zero" := by
  constructor
  · simp [PRB.occupied_count, PRB.init]
  · have h : (PRB.init cap bs cw a be).sampleWeightTotal = 0 := by
      simp [PRB.sampleWeightTotal, PRB.init]
    simp [PRB.sampleBatch, h]

/-- Weight invariant used for C9: the max-weight tracker is 1 and every
row either stores weight 1 or is an untouched zero row (zero weight and
zero probability, hence never drawn by the sampler). -/
def WInv (b : PRB) : Prop :=
  b.weights_max = 1 ∧
  ∀ i, (b.data i).weight = 1 ∨
    ((b.data i).weight = 0 ∧ (b.data i).probability = 0)

theorem winv_init (cap bs : ℕ) (cw : Bool) (a be : ℝ) :
    WInv (PRB.init cap bs cw a be) :=
  ⟨rfl, fun _ => Or.inr ⟨rfl, rfl⟩⟩

theorem winv_evictAt (b : PRB) (i : ℕ) (hcw : b.compute_weights = false)
    (h : WInv b) : WInv (b.evictAt i) := by
  obtain ⟨h1, h2⟩ := h
  unfold PRB.evictAt
  dsimp only
  by_cases ha : (b.data i).priority = b.priorities_max
  · rw [if_pos ha]
    dsimp only
    simp only [hcw, Bool.false_eq_true, if_false]
    refine ⟨h1, fun j => ?_⟩
    dsimp only
    by_cases hj : j = i
    · subst hj; rw [if_pos rfl]; exact h2 j
    · rw [if_neg hj]; exact h2 j
  · rw [if_neg ha]
    simp only [hcw, Bool.false_eq_true, if_false]
    exact ⟨h1, h2⟩

theorem winv_add (b : PRB) (t : Transition) (hcw : b.compute_weights = false)
    (h : WInv b) : WInv (b.add t) := by
  have hE : WInv (if b.buffer_size < b.experience_count + 1
      then b.evictAt ((b.experience_count + 1) % b.buffer_size) else b) := by
    split_ifs with hfull
    · exact winv_evictAt b _ hcw h
    · exact h
  obtain ⟨h1, h2⟩ := hE
  unfold PRB.add
  dsimp only
  refine ⟨h1, fun j => ?_⟩
  dsimp only
  by_cases hj : j = (b.experience_count + 1) % b.buffer_size
  · subst hj; rw [if_pos rfl]; exact Or.inl h1
  · rw [if_neg hj]; exact h2 j

theorem winv_updateOne (b : PRB) (td : ℝ) (idx : ℤ)
    (hcw : b.compute_weights = false) (h : WInv b) :
    WInv (b.updateOne td idx).1 := by
  obtain ⟨h1, h2⟩ := h
  unfold PRB.updateOne
  dsimp only
  simp only [hcw, Bool.false_eq_true, if_false]
  split_ifs <;>
  · refine ⟨h1, fun j => ?_⟩
    dsimp only
    first
      | exact h2 j
      | by_cases hj : j = wrapIdx b.buffer_size idx
        · subst hj; rw [if_pos rfl]; exact Or.inl rfl
        · rw [if_neg hj]; exact h2 j

theorem winv_update_priorities (pairs : List (ℝ × ℤ)) (b : PRB)
    (hcw : b.compute_weights = false) (h : WInv b) :
    WInv (b.update_priorities pairs).1 := by
  induction pairs generalizing b with
  | nil => exact h
  | cons p rest ih =>
    obtain ⟨td, idx⟩ := p
    simp only [PRB.update_priorities]
    split_ifs with herr
    · exact winv_updateOne b td idx hcw h
    · exact ih (b.updateOne td idx).1
        (by rw [updateOne_compute_weights]; exact hcw)
        (winv_updateOne b td idx hcw h)

theorem foldl_data_pointwise (P : PRec → Prop)
    (g : (ℕ → PRec) → ℕ → (ℕ → PRec))
    (hg : ∀ d i, (∀ j, P (d j)) → ∀ j, P (g d i j)) :
    ∀ (l : List ℕ) (d : ℕ → PRec), (∀ j, P (d j)) → ∀ j, P (l.foldl g d j) := by
  intro l
  induction l with
  | nil => intro d hd j; exact hd j
  | cons a l ih => intro d hd j; exact ih (g d a) (hg d a hd) j

theorem winv_update_parameters (b : PRB) (hcw : b.compute_weights = false)
    (h : WInv b) : WInv b.update_parameters := by
  obtain ⟨h1, h2⟩ := h
  unfold PRB.update_parameters
  dsimp only
  simp only [hcw, Bool.false_eq_true, if_false]
  refine ⟨h1, fun j => ?_⟩
  refine foldl_data_pointwise
    (fun r => r.weight = 1 ∨ (r.weight = 0 ∧ r.probability = 0)) _ ?_ _ _ h2 j
  intro d i hd j2
  dsimp only
  by_cases hj : j2 = wrapIdx b.buffer_size (d i).index
  · subst hj; rw [if_pos rfl]; exact Or.inl rfl
  · rw [if_neg hj]; exact hd j2

theorem winv_reached (b : PRB) (hr : Reached b) :
    b.compute_weights = false → WInv b := by
  induction hr with
  | init cap bs cw a be => intro _; exact winv_init cap bs cw a be
  | @add b0 t hb ih =>
    intro hcw
    have hcw0 : b0.compute_weights = false := by
      rw [← add_compute_weights b0 t]; exact hcw
    exact winv_add b0 t hcw0 (ih hcw0)
  | @upd b0 pairs hb ih =>
    intro hcw
    have hcw0 : b0.compute_weights = false := by
      rw [← update_priorities_compute_weights pairs b0]; exact hcw
    exact winv_update_priorities pairs b0 hcw0 (ih hcw0)
  | @par b0 hb ih =>
    intro hcw
    have hcw0 : b0.compute_weights = false := hcw
    exact winv_update_parameters b0 hcw0 (ih hcw0)

/-- C9: when the buffer is constructed with `compute_weights = false`, in
every state reachable through the public mutating interface the max-weight
tracker is 1 and every record the sampler can return (nonzero sampling
probability) stores weight exactly 1 — so every importance weight returned
by `sample` is 1. -/
theorem C9_weights_one (b : PRB) (i : ℕ) (hr : Reached b)
    (hcw : b.compute_weights = false)
    (hp : (b.data i).probability ≠ 0) :
    (b.data i).weight = 1 ∧ b.weights_max = 1 := by
  obtain ⟨h1, h2⟩ := winv_reached b hr hcw
  rcases h2 i with hw | ⟨hw, hprob⟩
  · exact ⟨hw, h1⟩
  · exact absurd hprob hp

/-- C9 witness: after one add on a capacity-1 buffer with
`compute_weights = false`, slot 0 has sampling probability 1 and weight 1. -/
theorem C9_weights_one_witness :
    (((PRB.init 1 64 false 1 1).add 0).data 0).weight = 1 ∧
    ((PRB.init 1 64 false 1 1).add 0).weights_max = 1 :=
  C9_weights_one ((PRB.init 1 64 false 1 1).add 0) 0
    (Reached.add 0 (Reached.init 1 64 false 1 1))
    (by rw [add_compute_weights]; rfl)
    (by norm_num [PRB.add, PRB.init, Real.one_rpow])

/-- C6: the claim says `update_parameters` with `compute_weights = true`
stores `weight = (occupied_count * priority) ^ (-beta) / weights_max` for
each occupied record. The code instead reads the record probability
(`element[1]`) where the priority (`element[0]`) is meant: on a capacity-2
buffer (alpha = beta = 1) with two adds, slot 0 holds priority 1 and
probability 1/2, and after `update_parameters` (beta clamped to 1) the
code stores weight `(2 * 1/2) ^ (-1) / 1 = 1`, while the claimed formula
gives `(2 * 1) ^ (-1) / 1 = 1/2`. -/
theorem C6_code_eval :
    ((((PRB.init 2 64 true 1 1).add 0).add 0).update_parameters.data 0).weight
      = 1 ∧
    (((((PRB.init 2 64 true 1 1).add 0).add 0).update_parameters.occupied_count : ℝ)
        * ((((PRB.init 2 64 true 1 1).add 0).add 0).update_parameters.data 0).priority)
        ^ (-((((PRB.init 2 64 true 1 1).add 0).add 0).update_parameters.beta))
      / (((PRB.init 2 64 true 1 1).add 0).add 0).update_parameters.weights_max
      = 1 / 2 ∧
    (1 : ℝ) ≠ 1 / 2 := by
  have hD : ((((PRB.init 2 64 true 1 1).add 0).add 0).update_parameters.data 0)
      = ⟨1, 1/2, 1, 0⟩ := by
    norm_num [PRB.update_parameters, PRB.add, PRB.init, wrapIdx,
      List.range_succ, Real.one_rpow]
  have hbeta :
      (((PRB.init 2 64 true 1 1).add 0).add 0).update_parameters.beta = 1 := by
    norm_num [PRB.update_parameters, PRB.add, PRB.init]
  have hocc :
      (((PRB.init 2 64 true 1 1).add 0).add 0).update_parameters.occupied_count
        = 2 := by
    norm_num [PRB.occupied_count, PRB.update_parameters, PRB.add, PRB.init]
  have hwm :
      (((PRB.init 2 64 true 1 1).add 0).add 0).update_parameters.weights_max
        = 1 := by
    norm_num [PRB.update_parameters, PRB.add, PRB.init]
  refine ⟨by rw [hD], ?_, by norm_num⟩
  rw [hD, hbeta, hocc, hwm]
  norm_num [Real.rpow_neg_one]

end Replay

end
